import Mathlib

/-!
# Verification of the motorcycle inspection scoring and valuation engine

Shallow embedding of the scoring and valuation engine of the bikevaluation
repository (`server/routes.ts`): the eight category scorers, the weighted
final-score aggregation (`calculateInspectionScores`) and the market
valuation (`calculateMarketValuation`).

Numbers are embedded as rationals (`ℚ`): the source is JavaScript, whose
arithmetic on the magnitudes involved here is exact for the decimal
constants and integer data the engine manipulates.  `Math.round` is
embedded as `jsRound` (round half toward `+∞`), `Math.max(0, ·)` as
`max 0 ·`, and the `||` fallback on a lookup as `jsOrDefault` (JavaScript
treats `0` as falsy).  The source reads the current year from the system
clock (`new Date().getFullYear()`); the embedding passes that year as an
explicit final argument `currentYear`.
-/

/-- JavaScript `Math.round`: round half away from zero toward `+∞`,
i.e. `⌊x + 1/2⌋`. -/
def jsRound (x : ℚ) : ℤ := ⌊x + 1/2⌋

/-- `Math.round(x * 10) / 10`: rounding to one decimal place, as the
source does for every category score and the final score. -/
def jsRound1 (x : ℚ) : ℚ := (jsRound (x * 10) : ℚ) / 10

/-- Engine category observation (field set of `engineData`). -/
structure EngineData where
  oilLeaks : String
  smoke : String
  abnormalNoise : Bool
  hardStart : Bool
  overheating : Bool

/-- Frame category observation (`frameData`). -/
structure FrameData where
  cracks : Bool
  rust : Bool
  bends : Bool
  repaintMarks : Bool

/-- Suspension category observation (`suspensionData`). -/
structure SuspensionData where
  leakage : Bool
  stiffness : Bool
  abnormalSound : Bool

/-- Brakes category observation (`brakesData`). -/
structure BrakesData where
  padRemaining : ℚ
  discWarp : Bool
  absStatus : Bool
  fluidLeak : Bool

/-- Tires category observation (`tiresData`). -/
structure TiresData where
  treadRemaining : ℚ
  cracks : Bool
  mismatchedPair : Bool
  ageOver5Years : Bool

/-- Electricals category observation (`electricalsData`). -/
structure ElectricalsData where
  lights : Bool
  indicators : Bool
  horn : Bool
  starter : Bool
  batteryCondition : String

/-- Body category observation (`bodyData`).  The scratch and dent counts
are numbers in the source (`z.number().min(0)` in the validation schema),
so they are embedded as rationals. -/
structure BodyData where
  minorScratches : ℚ
  bigScratches : ℚ
  smallDents : ℚ
  bigDents : ℚ
  cracks : Bool
  repaintPanels : Bool
  fairingCondition : String

/-- Documents category observation (`documentsData`). -/
structure DocumentsData where
  registration : Bool
  importPapers : Bool
  serviceRecords : Bool

/-- The eight category observations of one inspection payload. -/
structure InspectionData where
  engineData : EngineData
  frameData : FrameData
  suspensionData : SuspensionData
  brakesData : BrakesData
  tiresData : TiresData
  electricalsData : ElectricalsData
  bodyData : BodyData
  documentsData : DocumentsData

/-- `calculateEngineScore` from `server/routes.ts`. -/
def calculateEngineScore (engineData : EngineData) : ℚ :=
  let score : ℚ := 10
  let score := if engineData.oilLeaks = "minor" then score - 0.5 else score
  let score := if engineData.oilLeaks = "major" then score - 1.5 else score
  let score := if engineData.smoke = "light" then score - 0.8 else score
  let score := if engineData.smoke = "heavy" then score - 2.0 else score
  let score := if engineData.abnormalNoise then score - 1.0 else score
  let score := if engineData.hardStart then score - 0.7 else score
  let score := if engineData.overheating then score - 1.5 else score
  max 0 score

/-- `calculateFrameScore` from `server/routes.ts`. -/
def calculateFrameScore (frameData : FrameData) : ℚ :=
  let score : ℚ := 10
  let score := if frameData.cracks then score - 3.0 else score
  let score := if frameData.rust then score - 1.5 else score
  let score := if frameData.bends then score - 2.5 else score
  let score := if frameData.repaintMarks then score - 0.5 else score
  max 0 score

/-- `calculateSuspensionScore` from `server/routes.ts`. -/
def calculateSuspensionScore (suspensionData : SuspensionData) : ℚ :=
  let score : ℚ := 10
  let score := if suspensionData.leakage then score - 2.0 else score
  let score := if suspensionData.stiffness then score - 1.5 else score
  let score := if suspensionData.abnormalSound then score - 1.0 else score
  max 0 score

/-- The tiered brake-pad deduction of `calculateBrakesScore`:
`padCondition = padRemaining / 100`, then the `if / else if / else if`
chain of the source, lowest threshold first. -/
def padTierDeduction (padRemaining : ℚ) : ℚ :=
  let padCondition := padRemaining / 100
  if padCondition < 0.3 then 2.0
  else if padCondition < 0.5 then 1.0
  else if padCondition < 0.7 then 0.5
  else 0

/-- `calculateBrakesScore` from `server/routes.ts`. -/
def calculateBrakesScore (brakesData : BrakesData) : ℚ :=
  let score : ℚ := 10
  let score := score - padTierDeduction brakesData.padRemaining
  let score := if brakesData.discWarp then score - 1.5 else score
  let score := if brakesData.fluidLeak then score - 1.0 else score
  let score := if !brakesData.absStatus then score - 0.5 else score
  max 0 score

/-- The tiered tire-tread deduction of `calculateTiresScore`:
`treadCondition = treadRemaining / 100`, then the `if / else if / else if`
chain of the source, lowest threshold first. -/
def treadTierDeduction (treadRemaining : ℚ) : ℚ :=
  let treadCondition := treadRemaining / 100
  if treadCondition < 0.3 then 2.5
  else if treadCondition < 0.5 then 1.5
  else if treadCondition < 0.7 then 0.7
  else 0

/-- `calculateTiresScore` from `server/routes.ts`. -/
def calculateTiresScore (tiresData : TiresData) : ℚ :=
  let score : ℚ := 10
  let score := score - treadTierDeduction tiresData.treadRemaining
  let score := if tiresData.cracks then score - 1.0 else score
  let score := if tiresData.mismatchedPair then score - 0.8 else score
  let score := if tiresData.ageOver5Years then score - 1.2 else score
  max 0 score

/-- `calculateElectricalsScore` from `server/routes.ts`. -/
def calculateElectricalsScore (electricalsData : ElectricalsData) : ℚ :=
  let score : ℚ := 10
  let score := if !electricalsData.lights then score - 1.5 else score
  let score := if !electricalsData.indicators then score - 1.0 else score
  let score := if !electricalsData.horn then score - 0.5 else score
  let score := if !electricalsData.starter then score - 2.0 else score
  let score := if electricalsData.batteryCondition = "fair" then score - 1.0 else score
  let score := if electricalsData.batteryCondition = "poor" then score - 2.5 else score
  max 0 score

/-- The fairing-condition penalty table of `calculateBodyScore`,
including the `|| 0` default for a key absent from the table
(an unrecognized value, like `undefined`, yields `0`; the `'excellent'`
entry is itself `0`, which is falsy, so it also yields `0`). -/
def fairingConditionPenalty (fairingCondition : String) : ℚ :=
  if fairingCondition = "excellent" then 0
  else if fairingCondition = "good" then 0.5
  else if fairingCondition = "fair" then 1.5
  else if fairingCondition = "poor" then 3.0
  else 0

/-- `calculateBodyScore` from `server/routes.ts`. -/
def calculateBodyScore (bodyData : BodyData) : ℚ :=
  let score : ℚ := 10
  let score := score - bodyData.minorScratches * 0.1
  let score := score - bodyData.bigScratches * 0.3
  let score := score - bodyData.smallDents * 0.2
  let score := score - bodyData.bigDents * 0.5
  let score := if bodyData.cracks then score - 1.5 else score
  let score := if bodyData.repaintPanels then score - 1.0 else score
  let score := score - fairingConditionPenalty bodyData.fairingCondition
  max 0 score

/-- `calculateDocumentsScore` from `server/routes.ts`. -/
def calculateDocumentsScore (documentsData : DocumentsData) : ℚ :=
  let score : ℚ := 10
  let score := if !documentsData.registration then score - 4.0 else score
  let score := if !documentsData.importPapers then score - 3.0 else score
  let score := if !documentsData.serviceRecords then score - 3.0 else score
  max 0 score

/-- The category weight record of `calculateInspectionScores`. -/
structure Weights where
  engine : ℚ
  frame : ℚ
  suspension : ℚ
  brakes : ℚ
  tires : ℚ
  electricals : ℚ
  body : ℚ
  documents : ℚ

/-- The `weights` object literal of `calculateInspectionScores`. -/
def weights : Weights :=
  { engine := 40
    frame := 15
    suspension := 10
    brakes := 10
    tires := 10
    electricals := 5
    body := 8
    documents := 2 }

/-- The record returned by `calculateInspectionScores`. -/
structure InspectionScores where
  engineScore : ℚ
  frameScore : ℚ
  suspensionScore : ℚ
  brakesScore : ℚ
  tiresScore : ℚ
  electricalsScore : ℚ
  bodyScore : ℚ
  documentsScore : ℚ
  finalScore : ℚ
deriving DecidableEq, Repr

/-- `calculateInspectionScores` from `server/routes.ts`: run the eight
scorers, take the weighted sum over 100 and round every returned field
to one decimal. -/
def calculateInspectionScores (inspectionData : InspectionData) : InspectionScores :=
  let engineScore := calculateEngineScore inspectionData.engineData
  let frameScore := calculateFrameScore inspectionData.frameData
  let suspensionScore := calculateSuspensionScore inspectionData.suspensionData
  let brakesScore := calculateBrakesScore inspectionData.brakesData
  let tiresScore := calculateTiresScore inspectionData.tiresData
  let electricalsScore := calculateElectricalsScore inspectionData.electricalsData
  let bodyScore := calculateBodyScore inspectionData.bodyData
  let documentsScore := calculateDocumentsScore inspectionData.documentsData
  let finalScore :=
    (engineScore * weights.engine +
     frameScore * weights.frame +
     suspensionScore * weights.suspension +
     brakesScore * weights.brakes +
     tiresScore * weights.tires +
     electricalsScore * weights.electricals +
     bodyScore * weights.body +
     documentsScore * weights.documents) / 100
  { engineScore := jsRound1 engineScore
    frameScore := jsRound1 frameScore
    suspensionScore := jsRound1 suspensionScore
    brakesScore := jsRound1 brakesScore
    tiresScore := jsRound1 tiresScore
    electricalsScore := jsRound1 electricalsScore
    bodyScore := jsRound1 bodyScore
    documentsScore := jsRound1 documentsScore
    finalScore := jsRound1 finalScore }

/-- ASCII lowercasing of one character, the effect of JavaScript
`String.prototype.toLowerCase` on the ASCII keys used here. -/
def charLowerAscii (c : Char) : Char :=
  if 'A' ≤ c ∧ c ≤ 'Z' then Char.ofNat (c.toNat + 32) else c

/-- `s.toLowerCase()` for the ASCII strings used as pricing keys. -/
def toLowerAscii (s : String) : String := ⟨s.data.map charLowerAscii⟩

/-- The hardcoded `baselines` table of `calculateMarketValuation`,
brand → model → price. -/
def baselines : List (String × List (String × ℚ)) :=
  [("honda",
     [("cd-70", 159900), ("cg-125", 238500), ("pridor", 211900),
      ("cb-125f", 390900), ("cb-150f", 497900)]),
   ("suzuki",
     [("gd-110s", 369900), ("gs-150", 389000), ("gsx-125", 499000),
      ("gr-150", 552900)]),
   ("yamaha",
     [("ybr-125", 471500), ("ybr-125g", 490500), ("yb-125z", 429000)]),
   ("united",
     [("us-70", 111000), ("us-100", 108500), ("us-125", 79500),
      ("us-150", 347500)]),
   ("road-prince",
     [("rp-70", 111000), ("70-passion-plus", 121000), ("rp-125", 167000),
      ("150-wego", 419000), ("rx3", 1100000)]),
   ("unique",
     [("ud-70", 118500), ("125cc", 141000), ("150cc", 285000),
      ("crazer-ud-150", 685000)])]

/-- `baselines[make?.toLowerCase()]?.[model?.toLowerCase()]`: the nested
optional-chained lookup, `none` when either key is absent. -/
def lookupBaseline (make model : String) : Option ℚ :=
  (baselines.lookup (toLowerAscii make)).bind fun models =>
    models.lookup (toLowerAscii model)

/-- JavaScript `v || d` for a possibly-missing number `v`: `d` when the
lookup missed (`undefined`) and also when the value is `0` (falsy). -/
def jsOrDefault (v : Option ℚ) (d : ℚ) : ℚ :=
  match v with
  | none => d
  | some x => if x = 0 then d else x

/-- The pair returned by `calculateMarketValuation`.  (Named
`ValuationResult` because Mathlib already has a `Valuation`.) -/
structure ValuationResult where
  marketBaseline : ℤ
  estimatedValue : ℤ
deriving DecidableEq, Repr

/-- `calculateMarketValuation` from `server/routes.ts`.  The source reads
`currentYear` from the system clock (`new Date().getFullYear()`); the
embedding takes it as the explicit last argument. -/
def calculateMarketValuation (make model : String) (year : ℤ) (finalScore : ℚ)
    (currentYear : ℤ) : ValuationResult :=
  let marketBaseline := jsOrDefault (lookupBaseline make model) 200000
  let age : ℤ := currentYear - year
  let depreciationRate : ℚ := min ((age : ℚ) * 0.08) 0.5
  let marketBaseline := marketBaseline * (1 - depreciationRate)
  let conditionMultiplier := finalScore / 10
  let estimatedValue := marketBaseline * conditionMultiplier
  { marketBaseline := jsRound marketBaseline
    estimatedValue := jsRound estimatedValue }

/-- The fields of a `POST /api/inspections` request body consumed by the
scoring and valuation engine. -/
structure InspectionPayload where
  make : String
  model : String
  year : ℤ
  data : InspectionData

/-- The engine invocation performed by the `POST /api/inspections` route
handler: score the payload, then run the valuation on
`(make, model, year, finalScore)`.  `currentYear` stands for the system
clock the source reads inside `calculateMarketValuation`. -/
def processInspection (currentYear : ℤ) (p : InspectionPayload) :
    InspectionScores × ValuationResult :=
  let scores := calculateInspectionScores p.data
  let valuation :=
    calculateMarketValuation p.make p.model p.year scores.finalScore currentYear
  (scores, valuation)

/-- An all-clear inspection: every flag off, full pad and tread,
battery good, zero scratch and dent counts, fairing excellent and all
documents present. -/
def perfectInspection : InspectionData :=
  { engineData := ⟨"none", "none", false, false, false⟩
    frameData := ⟨false, false, false, false⟩
    suspensionData := ⟨false, false, false⟩
    brakesData := ⟨100, false, true, false⟩
    tiresData := ⟨100, false, false, false⟩
    electricalsData := ⟨true, true, true, true, "good"⟩
    bodyData := ⟨0, 0, 0, 0, false, false, "excellent"⟩
    documentsData := ⟨true, true, true⟩ }

/-! ## Basic facts about the JavaScript rounding -/

/-- `⌊q + 1/2⌋ = n` follows from the two half-open bounds. -/
lemma jsRound_eq {q : ℚ} {n : ℤ} (h₁ : (n : ℚ) ≤ q + 1/2)
    (h₂ : q + 1/2 < (n : ℚ) + 1) : jsRound q = n := by
  unfold jsRound
  exact Int.floor_eq_iff.mpr ⟨h₁, by exact_mod_cast h₂⟩

/-- Rounding an integer changes nothing. -/
lemma jsRound_intCast (n : ℤ) : jsRound (n : ℚ) = n :=
  jsRound_eq (by norm_num) (by norm_num)

/-- `jsRound 0 = 0`. -/
lemma jsRound_zero : jsRound 0 = 0 := by
  have h := jsRound_intCast 0
  simpa using h

/-- `Math.round` is monotone. -/
lemma jsRound_mono {a b : ℚ} (h : a ≤ b) : jsRound a ≤ jsRound b :=
  Int.floor_le_floor (by linarith)

/-- A rational that is an integer multiple of `1/10` (every category
score is one, because every penalty constant is). -/
def Tenth (q : ℚ) : Prop := ∃ n : ℤ, q = (n : ℚ) / 10

/-- A rational that is an integer (the body counts of a well-formed
payload are). -/
def IsIntQ (q : ℚ) : Prop := ∃ n : ℤ, q = (n : ℚ)

lemma Tenth.sub {a b : ℚ} (ha : Tenth a) (hb : Tenth b) : Tenth (a - b) := by
  rcases ha with ⟨m, rfl⟩
  rcases hb with ⟨n, rfl⟩
  exact ⟨m - n, by push_cast; ring⟩

/-- The conditional-deduction step shared by all scorers:
`if cond then score - penalty else score` stays a multiple of `1/10`. -/
lemma Tenth.condSub {c : Prop} [Decidable c] {s p : ℚ} (hs : Tenth s)
    (hp : Tenth p) : Tenth (if c then s - p else s) := by
  split_ifs
  exacts [hs.sub hp, hs]

lemma Tenth.max0 {a : ℚ} (ha : Tenth a) : Tenth (max 0 a) := by
  rcases ha with ⟨n, rfl⟩
  rcases le_total ((n : ℚ) / 10) 0 with h | h
  · rw [max_eq_left h]
    exact ⟨0, by norm_num⟩
  · rw [max_eq_right h]
    exact ⟨n, rfl⟩

lemma IsIntQ.mul_tenth {m : ℚ} (h : IsIntQ m) {k : ℤ} {p : ℚ}
    (hp : p = (k : ℚ) / 10) : Tenth (m * p) := by
  rcases h with ⟨n, rfl⟩
  exact ⟨n * k, by rw [hp]; push_cast; ring⟩

/-- Rounding to one decimal is the identity on multiples of `1/10`. -/
lemma jsRound1_tenth {q : ℚ} (h : Tenth q) : jsRound1 q = q := by
  rcases h with ⟨n, rfl⟩
  unfold jsRound1
  rw [div_mul_cancel₀ _ (by norm_num : (10 : ℚ) ≠ 0), jsRound_intCast]

/-! ## Every category score is a multiple of `1/10` -/

lemma tenth_padTier (p : ℚ) : Tenth (padTierDeduction p) := by
  simp only [padTierDeduction]
  split_ifs
  exacts [⟨20, by norm_num⟩, ⟨10, by norm_num⟩, ⟨5, by norm_num⟩, ⟨0, by norm_num⟩]

lemma tenth_treadTier (p : ℚ) : Tenth (treadTierDeduction p) := by
  simp only [treadTierDeduction]
  split_ifs
  exacts [⟨25, by norm_num⟩, ⟨15, by norm_num⟩, ⟨7, by norm_num⟩, ⟨0, by norm_num⟩]

lemma tenth_fairing (f : String) : Tenth (fairingConditionPenalty f) := by
  simp only [fairingConditionPenalty]
  split_ifs
  exacts [⟨0, by norm_num⟩, ⟨5, by norm_num⟩, ⟨15, by norm_num⟩, ⟨30, by norm_num⟩,
    ⟨0, by norm_num⟩]

lemma tenth_engineScore (d : EngineData) : Tenth (calculateEngineScore d) := by
  simp only [calculateEngineScore]
  exact Tenth.max0 (Tenth.condSub (Tenth.condSub (Tenth.condSub (Tenth.condSub
    (Tenth.condSub (Tenth.condSub (Tenth.condSub ⟨100, by norm_num⟩
    ⟨5, by norm_num⟩) ⟨15, by norm_num⟩) ⟨8, by norm_num⟩) ⟨20, by norm_num⟩)
    ⟨10, by norm_num⟩) ⟨7, by norm_num⟩) ⟨15, by norm_num⟩)

lemma tenth_frameScore (d : FrameData) : Tenth (calculateFrameScore d) := by
  simp only [calculateFrameScore]
  exact Tenth.max0 (Tenth.condSub (Tenth.condSub (Tenth.condSub (Tenth.condSub
    ⟨100, by norm_num⟩ ⟨30, by norm_num⟩) ⟨15, by norm_num⟩) ⟨25, by norm_num⟩)
    ⟨5, by norm_num⟩)

lemma tenth_suspensionScore (d : SuspensionData) : Tenth (calculateSuspensionScore d) := by
  simp only [calculateSuspensionScore]
  exact Tenth.max0 (Tenth.condSub (Tenth.condSub (Tenth.condSub ⟨100, by norm_num⟩
    ⟨20, by norm_num⟩) ⟨15, by norm_num⟩) ⟨10, by norm_num⟩)

lemma tenth_brakesScore (d : BrakesData) : Tenth (calculateBrakesScore d) := by
  simp only [calculateBrakesScore]
  exact Tenth.max0 (Tenth.condSub (Tenth.condSub (Tenth.condSub
    (Tenth.sub ⟨100, by norm_num⟩ (tenth_padTier _)) ⟨15, by norm_num⟩)
    ⟨10, by norm_num⟩) ⟨5, by norm_num⟩)

lemma tenth_tiresScore (d : TiresData) : Tenth (calculateTiresScore d) := by
  simp only [calculateTiresScore]
  exact Tenth.max0 (Tenth.condSub (Tenth.condSub (Tenth.condSub
    (Tenth.sub ⟨100, by norm_num⟩ (tenth_treadTier _)) ⟨10, by norm_num⟩)
    ⟨8, by norm_num⟩) ⟨12, by norm_num⟩)

lemma tenth_electricalsScore (d : ElectricalsData) : Tenth (calculateElectricalsScore d) := by
  simp only [calculateElectricalsScore]
  exact Tenth.max0 (Tenth.condSub (Tenth.condSub (Tenth.condSub (Tenth.condSub
    (Tenth.condSub (Tenth.condSub ⟨100, by norm_num⟩ ⟨15, by norm_num⟩)
    ⟨10, by norm_num⟩) ⟨5, by norm_num⟩) ⟨20, by norm_num⟩) ⟨10, by norm_num⟩)
    ⟨25, by norm_num⟩)

lemma tenth_bodyScore (d : BodyData) (h₁ : IsIntQ d.minorScratches)
    (h₂ : IsIntQ d.bigScratches) (h₃ : IsIntQ d.smallDents)
    (h₄ : IsIntQ d.bigDents) : Tenth (calculateBodyScore d) := by
  simp only [calculateBodyScore]
  exact Tenth.max0 (Tenth.sub (Tenth.condSub (Tenth.condSub
    (Tenth.sub (Tenth.sub (Tenth.sub (Tenth.sub ⟨100, by norm_num⟩
      (h₁.mul_tenth (k := 1) (by norm_num))) (h₂.mul_tenth (k := 3) (by norm_num)))
      (h₃.mul_tenth (k := 2) (by norm_num))) (h₄.mul_tenth (k := 5) (by norm_num)))
    ⟨15, by norm_num⟩) ⟨10, by norm_num⟩) (tenth_fairing _))

lemma tenth_documentsScore (d : DocumentsData) : Tenth (calculateDocumentsScore d) := by
  simp only [calculateDocumentsScore]
  exact Tenth.max0 (Tenth.condSub (Tenth.condSub (Tenth.condSub ⟨100, by norm_num⟩
    ⟨40, by norm_num⟩) ⟨30, by norm_num⟩) ⟨30, by norm_num⟩)

/-! ## Range facts -/

lemma padTier_nonneg (p : ℚ) : 0 ≤ padTierDeduction p := by
  simp only [padTierDeduction]
  split_ifs <;> norm_num

lemma treadTier_nonneg (p : ℚ) : 0 ≤ treadTierDeduction p := by
  simp only [treadTierDeduction]
  split_ifs <;> norm_num

lemma fairing_nonneg (f : String) : 0 ≤ fairingConditionPenalty f := by
  simp only [fairingConditionPenalty]
  split_ifs <;> norm_num

/-- A conditional deduction never increases the score. -/
lemma condSub_le {c : Prop} [Decidable c] {s p : ℚ} (hp : 0 ≤ p) :
    (if c then s - p else s) ≤ s := by
  split_ifs <;> linarith

/-- The all-perfect inspection scores 10.0 in every category and a final
score of 10.0. -/
lemma perfectInspection_scores :
    calculateInspectionScores perfectInspection = ⟨10, 10, 10, 10, 10, 10, 10, 10, 10⟩ := by
  simp [calculateInspectionScores, calculateEngineScore, calculateFrameScore,
    calculateSuspensionScore, calculateBrakesScore, calculateTiresScore,
    calculateElectricalsScore, calculateBodyScore, calculateDocumentsScore,
    padTierDeduction, treadTierDeduction, fairingConditionPenalty,
    perfectInspection, weights, jsRound1, jsRound]
  norm_num [Int.floor_eq_iff]

/-! ## Claim theorems -/

/-- C1: For every inspection payload, the final score equals
`round(Σ(categoryScore_i × weight_i) / 100, 1)` with the fixed integer
weights engine=40, frame=15, suspension=10, brakes=10, tires=10,
electricals=5, body=8, documents=2; and for an all-perfect inspection
(every category score 10.0) the final score is exactly 10.0.  The first
conjunct states the formula over the scorer outputs; the second over the
one-decimal category scores the engine returns (both coincide whenever
the body counts are integers, because every category score is then a
multiple of 0.1); the third evaluates the all-perfect payload. -/
theorem finalScore_weighted_formula :
    (∀ d : InspectionData,
      (calculateInspectionScores d).finalScore =
        jsRound1 ((calculateEngineScore d.engineData * 40 +
          calculateFrameScore d.frameData * 15 +
          calculateSuspensionScore d.suspensionData * 10 +
          calculateBrakesScore d.brakesData * 10 +
          calculateTiresScore d.tiresData * 10 +
          calculateElectricalsScore d.electricalsData * 5 +
          calculateBodyScore d.bodyData * 8 +
          calculateDocumentsScore d.documentsData * 2) / 100)) ∧
    (∀ d : InspectionData, IsIntQ d.bodyData.minorScratches →
      IsIntQ d.bodyData.bigScratches → IsIntQ d.bodyData.smallDents →
      IsIntQ d.bodyData.bigDents →
      (calculateInspectionScores d).finalScore =
        jsRound1 (((calculateInspectionScores d).engineScore * 40 +
          (calculateInspectionScores d).frameScore * 15 +
          (calculateInspectionScores d).suspensionScore * 10 +
          (calculateInspectionScores d).brakesScore * 10 +
          (calculateInspectionScores d).tiresScore * 10 +
          (calculateInspectionScores d).electricalsScore * 5 +
          (calculateInspectionScores d).bodyScore * 8 +
          (calculateInspectionScores d).documentsScore * 2) / 100)) ∧
    calculateInspectionScores perfectInspection = ⟨10, 10, 10, 10, 10, 10, 10, 10, 10⟩ := by
  refine ⟨fun d => rfl, fun d h₁ h₂ h₃ h₄ => ?_, ?_⟩
  · have he : (calculateInspectionScores d).engineScore = calculateEngineScore d.engineData :=
      jsRound1_tenth (tenth_engineScore _)
    have hf : (calculateInspectionScores d).frameScore = calculateFrameScore d.frameData :=
      jsRound1_tenth (tenth_frameScore _)
    have hs : (calculateInspectionScores d).suspensionScore =
        calculateSuspensionScore d.suspensionData :=
      jsRound1_tenth (tenth_suspensionScore _)
    have hb : (calculateInspectionScores d).brakesScore = calculateBrakesScore d.brakesData :=
      jsRound1_tenth (tenth_brakesScore _)
    have ht : (calculateInspectionScores d).tiresScore = calculateTiresScore d.tiresData :=
      jsRound1_tenth (tenth_tiresScore _)
    have hel : (calculateInspectionScores d).electricalsScore =
        calculateElectricalsScore d.electricalsData :=
      jsRound1_tenth (tenth_electricalsScore _)
    have hbo : (calculateInspectionScores d).bodyScore = calculateBodyScore d.bodyData :=
      jsRound1_tenth (tenth_bodyScore _ h₁ h₂ h₃ h₄)
    have hdo : (calculateInspectionScores d).documentsScore =
        calculateDocumentsScore d.documentsData :=
      jsRound1_tenth (tenth_documentsScore _)
    rw [he, hf, hs, hb, ht, hel, hbo, hdo]
    rfl
  · exact perfectInspection_scores

/-- C1 witness: the rounded-category-score formula instantiated at the
all-perfect inspection, whose body counts are the integer 0. -/
theorem finalScore_weighted_formula_witness :
    (calculateInspectionScores perfectInspection).finalScore =
      jsRound1 (((calculateInspectionScores perfectInspection).engineScore * 40 +
        (calculateInspectionScores perfectInspection).frameScore * 15 +
        (calculateInspectionScores perfectInspection).suspensionScore * 10 +
        (calculateInspectionScores perfectInspection).brakesScore * 10 +
        (calculateInspectionScores perfectInspection).tiresScore * 10 +
        (calculateInspectionScores perfectInspection).electricalsScore * 5 +
        (calculateInspectionScores perfectInspection).bodyScore * 8 +
        (calculateInspectionScores perfectInspection).documentsScore * 2) / 100) :=
  finalScore_weighted_formula.2.1 perfectInspection ⟨0, by norm_num [perfectInspection]⟩
    ⟨0, by norm_num [perfectInspection]⟩ ⟨0, by norm_num [perfectInspection]⟩
    ⟨0, by norm_num [perfectInspection]⟩

/-- C2: every category scorer returns a score in `[0, 10]`: the score
starts at 10, only subtracts penalties and is floored at 0.  The bounds
for the seven flag/enum/percentage scorers are unconditional (any
percentage input included); the body ceiling additionally needs the four
scratch/dent counts to be non-negative, exactly as the claim assumes
(the floor holds even for the unbounded count deductions). -/
theorem category_scores_in_range :
    (∀ d : EngineData, 0 ≤ calculateEngineScore d ∧ calculateEngineScore d ≤ 10) ∧
    (∀ d : FrameData, 0 ≤ calculateFrameScore d ∧ calculateFrameScore d ≤ 10) ∧
    (∀ d : SuspensionData, 0 ≤ calculateSuspensionScore d ∧ calculateSuspensionScore d ≤ 10) ∧
    (∀ d : BrakesData, 0 ≤ calculateBrakesScore d ∧ calculateBrakesScore d ≤ 10) ∧
    (∀ d : TiresData, 0 ≤ calculateTiresScore d ∧ calculateTiresScore d ≤ 10) ∧
    (∀ d : ElectricalsData, 0 ≤ calculateElectricalsScore d ∧ calculateElectricalsScore d ≤ 10) ∧
    (∀ d : BodyData, 0 ≤ calculateBodyScore d ∧
      (0 ≤ d.minorScratches → 0 ≤ d.bigScratches → 0 ≤ d.smallDents → 0 ≤ d.bigDents →
        calculateBodyScore d ≤ 10)) ∧
    (∀ d : DocumentsData, 0 ≤ calculateDocumentsScore d ∧ calculateDocumentsScore d ≤ 10) := by
  refine ⟨fun d => ⟨le_max_left _ _, ?_⟩, fun d => ⟨le_max_left _ _, ?_⟩,
    fun d => ⟨le_max_left _ _, ?_⟩, fun d => ⟨le_max_left _ _, ?_⟩,
    fun d => ⟨le_max_left _ _, ?_⟩, fun d => ⟨le_max_left _ _, ?_⟩,
    fun d => ⟨le_max_left _ _, fun c₁ c₂ c₃ c₄ => ?_⟩, fun d => ⟨le_max_left _ _, ?_⟩⟩
  · simp only [calculateEngineScore]
    apply max_le (by norm_num)
    exact le_trans (condSub_le (by norm_num)) (le_trans (condSub_le (by norm_num))
      (le_trans (condSub_le (by norm_num)) (le_trans (condSub_le (by norm_num))
      (le_trans (condSub_le (by norm_num)) (le_trans (condSub_le (by norm_num))
      (condSub_le (by norm_num)))))))
  · simp only [calculateFrameScore]
    apply max_le (by norm_num)
    exact le_trans (condSub_le (by norm_num)) (le_trans (condSub_le (by norm_num))
      (le_trans (condSub_le (by norm_num)) (condSub_le (by norm_num))))
  · simp only [calculateSuspensionScore]
    apply max_le (by norm_num)
    exact le_trans (condSub_le (by norm_num)) (le_trans (condSub_le (by norm_num))
      (condSub_le (by norm_num)))
  · simp only [calculateBrakesScore]
    apply max_le (by norm_num)
    exact le_trans (condSub_le (by norm_num)) (le_trans (condSub_le (by norm_num))
      (le_trans (condSub_le (by norm_num)) (sub_le_self 10 (padTier_nonneg _))))
  · simp only [calculateTiresScore]
    apply max_le (by norm_num)
    exact le_trans (condSub_le (by norm_num)) (le_trans (condSub_le (by norm_num))
      (le_trans (condSub_le (by norm_num)) (sub_le_self 10 (treadTier_nonneg _))))
  · simp only [calculateElectricalsScore]
    apply max_le (by norm_num)
    exact le_trans (condSub_le (by norm_num)) (le_trans (condSub_le (by norm_num))
      (le_trans (condSub_le (by norm_num)) (le_trans (condSub_le (by norm_num))
      (le_trans (condSub_le (by norm_num)) (condSub_le (by norm_num))))))
  · simp only [calculateBodyScore]
    apply max_le (by norm_num)
    refine le_trans (sub_le_self _ (fairing_nonneg _)) ?_
    refine le_trans (condSub_le (by norm_num)) ?_
    refine le_trans (condSub_le (by norm_num)) ?_
    refine le_trans (sub_le_self _ (mul_nonneg c₄ (by norm_num))) ?_
    refine le_trans (sub_le_self _ (mul_nonneg c₃ (by norm_num))) ?_
    refine le_trans (sub_le_self _ (mul_nonneg c₂ (by norm_num))) ?_
    exact sub_le_self _ (mul_nonneg c₁ (by norm_num))
  · simp only [calculateDocumentsScore]
    apply max_le (by norm_num)
    exact le_trans (condSub_le (by norm_num)) (le_trans (condSub_le (by norm_num))
      (condSub_le (by norm_num)))

/-- C2 witness: the body bounds instantiated at an all-zero-count body
observation. -/
theorem category_scores_in_range_witness :
    0 ≤ calculateBodyScore ⟨0, 0, 0, 0, false, false, "excellent"⟩ ∧
    calculateBodyScore ⟨0, 0, 0, 0, false, false, "excellent"⟩ ≤ 10 :=
  ⟨(category_scores_in_range.2.2.2.2.2.2.1 ⟨0, 0, 0, 0, false, false, "excellent"⟩).1,
   (category_scores_in_range.2.2.2.2.2.2.1 ⟨0, 0, 0, 0, false, false, "excellent"⟩).2
     (by norm_num) (by norm_num) (by norm_num) (by norm_num)⟩

/-- C3: the brake-pad and tire-tread tiered deductions apply exactly one
tier, chosen by strict less-than comparison with the lowest threshold
first and never cumulated: `padRemaining = 29` deducts exactly 2.0 and
`padRemaining = 69` exactly 0.5, `padRemaining ≥ 70` deducts 0, and the
deduction is always one of {0, 0.5, 1, 2} (never a sum of tiers);
analogously for the tread with {0, 0.7, 1.5, 2.5}.  The last four
conjuncts evaluate the full scorers at observations differing only in
the percentage, showing the stated single-tier deductions. -/
theorem tier_deductions_single_tier :
    padTierDeduction 29 = 2 ∧ padTierDeduction 69 = 0.5 ∧
    (∀ p : ℚ, 70 ≤ p → padTierDeduction p = 0) ∧
    (∀ p : ℚ, padTierDeduction p = 0 ∨ padTierDeduction p = 0.5 ∨
      padTierDeduction p = 1 ∨ padTierDeduction p = 2) ∧
    treadTierDeduction 29 = 2.5 ∧ treadTierDeduction 69 = 0.7 ∧
    (∀ p : ℚ, 70 ≤ p → treadTierDeduction p = 0) ∧
    (∀ p : ℚ, treadTierDeduction p = 0 ∨ treadTierDeduction p = 0.7 ∨
      treadTierDeduction p = 1.5 ∨ treadTierDeduction p = 2.5) ∧
    calculateBrakesScore ⟨29, false, true, false⟩ = 8 ∧
    calculateBrakesScore ⟨69, false, true, false⟩ = 9.5 ∧
    calculateTiresScore ⟨29, false, false, false⟩ = 7.5 ∧
    calculateTiresScore ⟨69, false, false, false⟩ = 9.3 := by
  refine ⟨by norm_num [padTierDeduction], by norm_num [padTierDeduction], ?_, ?_,
    by norm_num [treadTierDeduction], by norm_num [treadTierDeduction], ?_, ?_,
    by norm_num [calculateBrakesScore, padTierDeduction],
    by norm_num [calculateBrakesScore, padTierDeduction],
    by norm_num [calculateTiresScore, treadTierDeduction],
    by norm_num [calculateTiresScore, treadTierDeduction]⟩
  · intro p hp
    simp only [padTierDeduction]
    split_ifs with h₁ h₂ h₃
    · linarith
    · linarith
    · linarith
    · rfl
  · intro p
    simp only [padTierDeduction]
    split_ifs <;> norm_num
  · intro p hp
    simp only [treadTierDeduction]
    split_ifs with h₁ h₂ h₃
    · linarith
    · linarith
    · linarith
    · rfl
  · intro p
    simp only [treadTierDeduction]
    split_ifs <;> norm_num

/-- C3 witness: the at-or-above-70 conjuncts instantiated at 70 and 85. -/
theorem tier_deductions_single_tier_witness :
    padTierDeduction 70 = 0 ∧ treadTierDeduction 85 = 0 :=
  ⟨tier_deductions_single_tier.2.2.1 70 (by norm_num),
   tier_deductions_single_tier.2.2.2.2.2.2.1 85 (by norm_num)⟩

/-! ## Facts about the pricing lookup -/

/-- A successful association-list lookup returns one of the stored
values. -/
lemma lookup_mem_values {α β : Type} [BEq α] :
    ∀ (l : List (α × β)) (k : α) (v : β), l.lookup k = some v → v ∈ l.map Prod.snd := by
  intro l
  induction l with
  | nil => intro k v h; simp [List.lookup] at h
  | cons a t ih =>
    intro k v h
    rw [List.lookup] at h
    by_cases hk : k == a.1
    · rw [hk] at h
      simp at h
      simp [h]
    · rw [Bool.not_eq_true] at hk
      rw [hk] at h
      simp [ih _ _ h]

/-- Whatever the make and model, the baseline the valuation starts from
is positive (every table entry is, and so is the 200000 fallback). -/
lemma baseline_pos (make model : String) :
    0 < jsOrDefault (lookupBaseline make model) 200000 := by
  cases h : lookupBaseline make model with
  | none => simp [jsOrDefault]
  | some v =>
    rw [lookupBaseline, Option.bind_eq_some] at h
    obtain ⟨models, h₁, h₂⟩ := h
    have hm := lookup_mem_values _ _ _ h₁
    have hv := lookup_mem_values _ _ _ h₂
    simp only [jsOrDefault]
    split_ifs with h0
    · norm_num
    · simp [baselines] at hm
      rcases hm with rfl | rfl | rfl | rfl | rfl | rfl <;>
        simp only [List.map] at hv <;> fin_cases hv <;> norm_num

/-- C5: the baseline lookup matches make and model case-insensitively
(the valuation only ever sees the lowercased keys), and whenever the
pair is absent from the pricing table the valuation proceeds from the
fixed fallback baseline 200000 — depreciation and the condition
multiplier are applied to it exactly as to a found baseline, and no
error is possible. -/
theorem baseline_case_insensitive_and_fallback :
    (∀ make₁ make₂ model₁ model₂ : String, toLowerAscii make₁ = toLowerAscii make₂ →
      toLowerAscii model₁ = toLowerAscii model₂ → ∀ (year : ℤ) (s : ℚ) (cy : ℤ),
      calculateMarketValuation make₁ model₁ year s cy =
        calculateMarketValuation make₂ model₂ year s cy) ∧
    (∀ make model : String, lookupBaseline make model = none →
      ∀ (year : ℤ) (s : ℚ) (cy : ℤ),
      calculateMarketValuation make model year s cy =
        { marketBaseline := jsRound (200000 * (1 - min (((cy - year : ℤ) : ℚ) * 0.08) 0.5))
          estimatedValue :=
            jsRound (200000 * (1 - min (((cy - year : ℤ) : ℚ) * 0.08) 0.5) * (s / 10)) }) := by
  constructor
  · intro m₁ m₂ mo₁ mo₂ h₁ h₂ year s cy
    unfold calculateMarketValuation lookupBaseline
    rw [h₁, h₂]
  · intro make model h year s cy
    unfold calculateMarketValuation
    rw [h]
    rfl

/-- C5 witness: mixed-case keys give the same valuation as lowercase
ones, and an absent (make, model) pair is valued from the 200000
fallback. -/
theorem baseline_case_insensitive_and_fallback_witness :
    calculateMarketValuation "HONDA" "Cd-70" 2024 9 2025 =
      calculateMarketValuation "honda" "CD-70" 2024 9 2025 ∧
    calculateMarketValuation "Ducati" "Panigale" 2024 9 2025 =
      { marketBaseline := jsRound (200000 * (1 - min (((2025 - 2024 : ℤ) : ℚ) * 0.08) 0.5))
        estimatedValue :=
          jsRound (200000 * (1 - min (((2025 - 2024 : ℤ) : ℚ) * 0.08) 0.5) * ((9 : ℚ) / 10)) } :=
  ⟨baseline_case_insensitive_and_fallback.1 "HONDA" "honda" "Cd-70" "CD-70"
     (by decide) (by decide) 2024 9 2025,
   baseline_case_insensitive_and_fallback.2 "Ducati" "Panigale" (by decide) 2024 9 2025⟩

/-- C4 counterexample: the claim says a vehicle year in the future is
clamped to age 0 so depreciation leaves the baseline unchanged; but for
an unknown pair (fallback baseline 200000) with year 2026 valued in
2025 the code returns marketBaseline 216000 ≠ 200000: the negative age
is not clamped and inflates the baseline by 8%. -/
theorem future_year_claim_counterexample :
    jsOrDefault (lookupBaseline "Nobrand" "Nomodel") 200000 = 200000 ∧
    (calculateMarketValuation "Nobrand" "Nomodel" 2026 10 2025).marketBaseline = 216000 ∧
    (216000 : ℤ) ≠ 200000 := by
  have h : lookupBaseline "Nobrand" "Nomodel" = none := by decide
  refine ⟨by rw [h]; rfl, ?_, by norm_num⟩
  simp [calculateMarketValuation, h, jsOrDefault, jsRound]
  norm_num [min_def, Int.floor_eq_iff]

/-- C4 amended: vehicle age `currentYear − vehicleYear` is NOT clamped
at 0.  For every vehicleYear strictly greater than currentYear the
depreciation rate is the negative `age × 0.08` (the 0.5 cap does not
bind), the returned baseline is the rounding of
`baseline × (1 − age × 0.08)`, and that pre-rounding value strictly
exceeds the undepreciated baseline — the valuation inflates the
baseline instead of leaving it unchanged. -/
theorem future_year_negative_depreciation (make model : String) (year cy : ℤ) (s : ℚ)
    (h : cy < year) :
    min (((cy - year : ℤ) : ℚ) * 0.08) 0.5 = ((cy - year : ℤ) : ℚ) * 0.08 ∧
    ((cy - year : ℤ) : ℚ) * 0.08 < 0 ∧
    (calculateMarketValuation make model year s cy).marketBaseline =
      jsRound (jsOrDefault (lookupBaseline make model) 200000 *
        (1 - ((cy - year : ℤ) : ℚ) * 0.08)) ∧
    jsOrDefault (lookupBaseline make model) 200000 <
      jsOrDefault (lookupBaseline make model) 200000 *
        (1 - ((cy - year : ℤ) : ℚ) * 0.08) := by
  have hage : ((cy - year : ℤ) : ℚ) ≤ -1 := by
    have hz : cy - year ≤ -1 := by omega
    exact_mod_cast hz
  have hneg : ((cy - year : ℤ) : ℚ) * 0.08 < 0 := by nlinarith
  have hmin : min (((cy - year : ℤ) : ℚ) * 0.08) 0.5 = ((cy - year : ℤ) : ℚ) * 0.08 :=
    min_eq_left (by linarith)
  refine ⟨hmin, hneg, ?_, ?_⟩
  · show jsRound (jsOrDefault (lookupBaseline make model) 200000 *
      (1 - min (((cy - year : ℤ) : ℚ) * 0.08) 0.5)) = _
    rw [hmin]
  · have hB := baseline_pos make model
    nlinarith [mul_neg_of_pos_of_neg hB hneg]

/-- C4 amended witness: the inflation instantiated at an unknown pair
valued in 2025 with vehicle year 2026. -/
theorem future_year_negative_depreciation_witness :
    min (((2025 - 2026 : ℤ) : ℚ) * 0.08) 0.5 = ((2025 - 2026 : ℤ) : ℚ) * 0.08 ∧
    ((2025 - 2026 : ℤ) : ℚ) * 0.08 < 0 ∧
    (calculateMarketValuation "Nobrand" "Nomodel" 2026 10 2025).marketBaseline =
      jsRound (jsOrDefault (lookupBaseline "Nobrand" "Nomodel") 200000 *
        (1 - ((2025 - 2026 : ℤ) : ℚ) * 0.08)) ∧
    jsOrDefault (lookupBaseline "Nobrand" "Nomodel") 200000 <
      jsOrDefault (lookupBaseline "Nobrand" "Nomodel") 200000 *
        (1 - ((2025 - 2026 : ℤ) : ℚ) * 0.08) :=
  future_year_negative_depreciation "Nobrand" "Nomodel" 2026 2025 10 (by norm_num)

/-- C6: the end-to-end example.  The scoring half of the claim holds
(engine 8.5, final score 9.4), and so does the arithmetic
`round(159900 × 1.0 × 0.94) = 150306` — but only for the key "CD-70".
For the model name the application actually uses, "CD 70" (the seeded
database name, with a space), the lowercased key "cd 70" misses the
hardcoded hyphenated table key "cd-70", so the code returns the 200000
fallback and estimatedValue 188000 instead of 159900/150306. -/
theorem honda_cd70_example_divergence :
    calculateEngineScore ⟨"major", "none", false, false, false⟩ = 8.5 ∧
    (calculateInspectionScores
      { perfectInspection with
          engineData := ⟨"major", "none", false, false, false⟩ }).finalScore = 9.4 ∧
    calculateMarketValuation "Honda" "CD 70" 2025 9.4 2025 = ⟨200000, 188000⟩ ∧
    calculateMarketValuation "Honda" "CD-70" 2025 9.4 2025 = ⟨159900, 150306⟩ := by
  refine ⟨by simp [calculateEngineScore]; norm_num, ?_, ?_, ?_⟩
  · simp [calculateInspectionScores, calculateEngineScore, calculateFrameScore,
      calculateSuspensionScore, calculateBrakesScore, calculateTiresScore,
      calculateElectricalsScore, calculateBodyScore, calculateDocumentsScore,
      padTierDeduction, treadTierDeduction, fairingConditionPenalty,
      perfectInspection, weights, jsRound1, jsRound]
    norm_num [Int.floor_eq_iff]
  · have h : lookupBaseline "Honda" "CD 70" = none := by decide
    simp [calculateMarketValuation, h, jsOrDefault, jsRound]
    norm_num [Int.floor_eq_iff]
  · have h : lookupBaseline "Honda" "CD-70" = some 159900 := by decide
    simp [calculateMarketValuation, h, jsOrDefault, jsRound]
    norm_num [Int.floor_eq_iff]

/-- C7 counterexample: the condition multiplier is NOT clamped to
`[0, 1]`: a finalScore of 20 doubles the fallback baseline
(estimatedValue 400000 > marketBaseline 200000) and a finalScore of −10
produces the negative estimatedValue −200000. -/
theorem condition_multiplier_unclamped :
    (calculateMarketValuation "Nobrand" "Nomodel" 2025 20 2025).marketBaseline = 200000 ∧
    (calculateMarketValuation "Nobrand" "Nomodel" 2025 20 2025).estimatedValue = 400000 ∧
    (calculateMarketValuation "Nobrand" "Nomodel" 2025 (-10) 2025).estimatedValue = -200000 := by
  have h : lookupBaseline "Nobrand" "Nomodel" = none := by decide
  refine ⟨?_, ?_, ?_⟩ <;>
    · simp [calculateMarketValuation, h, jsOrDefault, jsRound]
      norm_num [min_def, Int.floor_eq_iff]

/-- C7 amended: the code applies `conditionMultiplier = finalScore / 10`
with no clamping (see `condition_multiplier_unclamped`), so the claimed
tolerance only holds on the range the scoring engine actually produces:
for every finalScore in `[0, 10]` the estimated value is non-negative
and never exceeds the depreciation-adjusted (returned) baseline. -/
theorem estimated_value_bounds (make model : String) (year : ℤ) (s : ℚ) (cy : ℤ)
    (h0 : 0 ≤ s) (h10 : s ≤ 10) :
    0 ≤ (calculateMarketValuation make model year s cy).estimatedValue ∧
    (calculateMarketValuation make model year s cy).estimatedValue ≤
      (calculateMarketValuation make model year s cy).marketBaseline := by
  obtain ⟨B, hBpos, hB1, hB2⟩ : ∃ B : ℚ, 0 < B ∧
      (calculateMarketValuation make model year s cy).estimatedValue =
        jsRound (B * (1 - min (((cy - year : ℤ) : ℚ) * 0.08) 0.5) * (s / 10)) ∧
      (calculateMarketValuation make model year s cy).marketBaseline =
        jsRound (B * (1 - min (((cy - year : ℤ) : ℚ) * 0.08) 0.5)) :=
    ⟨_, baseline_pos make model, rfl, rfl⟩
  have hr : min (((cy - year : ℤ) : ℚ) * 0.08) 0.5 ≤ 1/2 :=
    le_trans (min_le_right _ _) (by norm_num)
  have hadj : 0 ≤ B * (1 - min (((cy - year : ℤ) : ℚ) * 0.08) 0.5) :=
    mul_nonneg hBpos.le (by linarith)
  constructor
  · rw [hB1]
    have hmono := jsRound_mono (mul_nonneg hadj (by linarith : (0:ℚ) ≤ s / 10))
    rwa [jsRound_zero] at hmono
  · rw [hB1, hB2]
    exact jsRound_mono (mul_le_of_le_one_right hadj (by linarith : s / 10 ≤ 1))

/-- C7 amended witness: the bounds instantiated at the fallback pair
with finalScore 9 in 2025 for a 2024 vehicle. -/
theorem estimated_value_bounds_witness :
    0 ≤ (calculateMarketValuation "Nobrand" "Nomodel" 2024 9 2025).estimatedValue ∧
    (calculateMarketValuation "Nobrand" "Nomodel" 2024 9 2025).estimatedValue ≤
      (calculateMarketValuation "Nobrand" "Nomodel" 2024 9 2025).marketBaseline :=
  estimated_value_bounds "Nobrand" "Nomodel" 2024 9 2025 (by norm_num) (by norm_num)

/-- C8 counterexample: the engine does depend on the system clock.  The
same payload (Honda CD-70, vehicle year 2024, all-perfect inspection)
valued at clock year 2025 and at clock year 2026 yields different
valuations, because `calculateMarketValuation` reads `currentYear` from
`new Date()`. -/
theorem valuation_depends_on_clock :
    (processInspection 2025 ⟨"Honda", "CD-70", 2024, perfectInspection⟩).2 ≠
      (processInspection 2026 ⟨"Honda", "CD-70", 2024, perfectInspection⟩).2 := by
  have h : lookupBaseline "Honda" "CD-70" = some 159900 := by decide
  have ha : calculateMarketValuation "Honda" "CD-70" 2024 10 2025 = ⟨147108, 147108⟩ := by
    simp [calculateMarketValuation, h, jsOrDefault, jsRound]
    norm_num [min_def, Int.floor_eq_iff]
  have hb : calculateMarketValuation "Honda" "CD-70" 2024 10 2026 = ⟨134316, 134316⟩ := by
    simp [calculateMarketValuation, h, jsOrDefault, jsRound]
    norm_num [min_def, Int.floor_eq_iff]
  simp only [processInspection, perfectInspection_scores]
  rw [ha, hb]
  decide

/-- C8 amended: the category and final scores are a pure function of
the inspection payload alone — they are unchanged under any change of
the clock year — and the whole invocation is a deterministic function of
the payload together with the clock year the valuation reads; but, per
`valuation_depends_on_clock`, the valuation half is not independent of
the clock. -/
theorem engine_deterministic_given_clock :
    (∀ (cy cy' : ℤ) (p : InspectionPayload),
      (processInspection cy p).1 = (processInspection cy' p).1) ∧
    (∀ (cy : ℤ) (p : InspectionPayload),
      processInspection cy p =
        (calculateInspectionScores p.data,
         calculateMarketValuation p.make p.model p.year
           (calculateInspectionScores p.data).finalScore cy)) :=
  ⟨fun _ _ _ => rfl, fun _ _ => rfl⟩

/-- `⌊2x + 1/2⌋` and `2⌊x + 1/2⌋` differ by at most one. -/
lemma jsRound_two_mul (x : ℚ) : |jsRound (2 * x) - 2 * jsRound x| ≤ 1 := by
  unfold jsRound
  have h1 : ((⌊x + 1/2⌋ : ℤ) : ℚ) ≤ x + 1/2 := Int.floor_le _
  have h2 : x + 1/2 < ⌊x + 1/2⌋ + 1 := Int.lt_floor_add_one _
  have h3 : (2 * ⌊x + 1/2⌋ - 1 : ℤ) ≤ ⌊2 * x + 1/2⌋ := by
    apply Int.le_floor.mpr
    push_cast
    linarith
  have h4 : ⌊2 * x + 1/2⌋ < 2 * ⌊x + 1/2⌋ + 2 := by
    apply Int.floor_lt.mpr
    push_cast
    linarith
  rw [abs_le]
  omega

/-- C9 counterexample: doubling the final score does not exactly double
the returned `estimatedValue`, because the integer rounding happens
after the multiplication: with the fallback baseline 200000 at age 0,
finalScore 1/40000 gives estimatedValue 1 (from the raw value 0.5) but
finalScore 2·(1/40000) also gives 1 (raw value 1.0), not 2. -/
theorem estimated_value_linearity_counterexample :
    (0 : ℚ) ≤ 1 / 40000 ∧ (2 * (1 / 40000) : ℚ) ≤ 10 ∧
    (calculateMarketValuation "Nobrand" "Nomodel" 2025 (2 * (1 / 40000)) 2025).estimatedValue ≠
      2 * (calculateMarketValuation "Nobrand" "Nomodel" 2025 (1 / 40000) 2025).estimatedValue := by
  have h : lookupBaseline "Nobrand" "Nomodel" = none := by decide
  refine ⟨by norm_num, by norm_num, ?_⟩
  have h1 : (calculateMarketValuation "Nobrand" "Nomodel" 2025
      (2 * (1 / 40000)) 2025).estimatedValue = 1 := by
    simp [calculateMarketValuation, h, jsOrDefault, jsRound]
    norm_num [min_def, Int.floor_eq_iff]
  have h2 : (calculateMarketValuation "Nobrand" "Nomodel" 2025
      (1 / 40000) 2025).estimatedValue = 1 := by
    simp [calculateMarketValuation, h, jsOrDefault, jsRound]
    norm_num [min_def, Int.floor_eq_iff]
  rw [h1, h2]
  norm_num

/-- C9 amended: for fixed make, model, year and clock year the
pre-rounding estimated value
`adjustedBaseline × finalScore / 10` is exactly linear in the final
score — doubling the score doubles it — and the returned
`estimatedValue` is its integer rounding, so doubling the final score
reproduces double the estimate only up to the final rounding (the two
differ by at most 1). -/
theorem estimated_value_linear_up_to_rounding (make model : String) (year : ℤ) (s : ℚ)
    (cy : ℤ) :
    (calculateMarketValuation make model year s cy).estimatedValue =
      jsRound (jsOrDefault (lookupBaseline make model) 200000 *
        (1 - min (((cy - year : ℤ) : ℚ) * 0.08) 0.5) * (s / 10)) ∧
    jsOrDefault (lookupBaseline make model) 200000 *
        (1 - min (((cy - year : ℤ) : ℚ) * 0.08) 0.5) * (2 * s / 10) =
      2 * (jsOrDefault (lookupBaseline make model) 200000 *
        (1 - min (((cy - year : ℤ) : ℚ) * 0.08) 0.5) * (s / 10)) ∧
    |(calculateMarketValuation make model year (2 * s) cy).estimatedValue -
      2 * (calculateMarketValuation make model year s cy).estimatedValue| ≤ 1 := by
  refine ⟨rfl, by ring, ?_⟩
  have e : jsOrDefault (lookupBaseline make model) 200000 *
      (1 - min (((cy - year : ℤ) : ℚ) * 0.08) 0.5) * (2 * s / 10) =
      2 * (jsOrDefault (lookupBaseline make model) 200000 *
        (1 - min (((cy - year : ℤ) : ℚ) * 0.08) 0.5) * (s / 10)) := by ring
  have h1 : (calculateMarketValuation make model year (2 * s) cy).estimatedValue =
      jsRound (2 * (jsOrDefault (lookupBaseline make model) 200000 *
        (1 - min (((cy - year : ℤ) : ℚ) * 0.08) 0.5) * (s / 10))) := by
    show jsRound (jsOrDefault (lookupBaseline make model) 200000 *
      (1 - min (((cy - year : ℤ) : ℚ) * 0.08) 0.5) * (2 * s / 10)) = _
    rw [e]
  have h2 : (calculateMarketValuation make model year s cy).estimatedValue =
      jsRound (jsOrDefault (lookupBaseline make model) 200000 *
        (1 - min (((cy - year : ℤ) : ℚ) * 0.08) 0.5) * (s / 10)) := rfl
  rw [h1, h2]
  exact jsRound_two_mul _

/-- C10: every scorer treats an unrecognized enum value, field by
field, exactly like the no-penalty value: an engine observation whose
oilLeaks is neither "minor" nor "major" scores as if oilLeaks were
"none" whatever the rest of the observation (the smoke field may well
be a recognized penalizing value), and symmetrically an unrecognized
smoke scores as "none" whatever oilLeaks is; an electricals
batteryCondition that is neither "fair" nor "poor" scores as "good"; a
body fairingCondition outside the four known levels scores as
"excellent" (penalty 0).  All scorers are total functions, so no enum
value can raise an error. -/
theorem unrecognized_enum_zero_deduction :
    (∀ d : EngineData, d.oilLeaks ≠ "minor" → d.oilLeaks ≠ "major" →
      calculateEngineScore d = calculateEngineScore { d with oilLeaks := "none" }) ∧
    (∀ d : EngineData, d.smoke ≠ "light" → d.smoke ≠ "heavy" →
      calculateEngineScore d = calculateEngineScore { d with smoke := "none" }) ∧
    (∀ d : ElectricalsData, d.batteryCondition ≠ "fair" → d.batteryCondition ≠ "poor" →
      calculateElectricalsScore d =
        calculateElectricalsScore { d with batteryCondition := "good" }) ∧
    (∀ d : BodyData, d.fairingCondition ≠ "excellent" → d.fairingCondition ≠ "good" →
      d.fairingCondition ≠ "fair" → d.fairingCondition ≠ "poor" →
      calculateBodyScore d = calculateBodyScore { d with fairingCondition := "excellent" }) := by
  refine ⟨fun d h₁ h₂ => ?_, fun d h₁ h₂ => ?_, fun d h₁ h₂ => ?_,
    fun d h₁ h₂ h₃ h₄ => ?_⟩
  · simp [calculateEngineScore, h₁, h₂]
  · simp [calculateEngineScore, h₁, h₂]
  · simp [calculateElectricalsScore, h₁, h₂]
  · simp [calculateBodyScore, fairingConditionPenalty, h₁, h₂, h₃, h₄]

/-- C10 witness: unknown enum strings score exactly like the recognized
no-penalty values, also when the other enum of the same observation is
a recognized penalizing value (oilLeaks "weird" with smoke "heavy";
smoke "blue" with oilLeaks "major"). -/
theorem unrecognized_enum_zero_deduction_witness :
    calculateEngineScore ⟨"weird", "heavy", false, false, false⟩ =
      calculateEngineScore ⟨"none", "heavy", false, false, false⟩ ∧
    calculateEngineScore ⟨"major", "blue", false, false, false⟩ =
      calculateEngineScore ⟨"major", "none", false, false, false⟩ ∧
    calculateElectricalsScore ⟨true, true, true, true, "excellent"⟩ =
      calculateElectricalsScore ⟨true, true, true, true, "good"⟩ ∧
    calculateBodyScore ⟨1, 0, 0, 0, false, false, "mint"⟩ =
      calculateBodyScore ⟨1, 0, 0, 0, false, false, "excellent"⟩ :=
  ⟨unrecognized_enum_zero_deduction.1 ⟨"weird", "heavy", false, false, false⟩
     (by decide) (by decide),
   unrecognized_enum_zero_deduction.2.1 ⟨"major", "blue", false, false, false⟩
     (by decide) (by decide),
   unrecognized_enum_zero_deduction.2.2.1 ⟨true, true, true, true, "excellent"⟩
     (by decide) (by decide),
   unrecognized_enum_zero_deduction.2.2.2 ⟨1, 0, 0, 0, false, false, "mint"⟩
     (by decide) (by decide) (by decide) (by decide)⟩
